import Mathlib

/-!
Verification of the Click-Creators scraper server core against its
specification.

The Python source is shallowly embedded as follows: strings are `String`
(or `List Char` where per-character reasoning is needed, restricted to
ASCII, where Python's `str.isalnum` / `str.lower` / `str.strip` agree
with `Char.isAlpha`/`Char.isDigit`/`Char.toLower`/whitespace tests);
timestamps are `Nat`; the persistent store (Supabase tables) is lists of
row structures; the external record store (Airtable) is a list of
records carrying their table number.  A storage call that the source
wraps in try/except is modelled as succeeding (happy path) except where
a claim is about the failure path, in which case the failure is
injected through an explicit oracle parameter (`extFail`, `ok`).
-/

/-! ### Python string primitives -/

/-- Default whitespace stripped by Python `str.strip` (ASCII fragment). -/
def pyIsSpace (c : Char) : Bool :=
  c = ' ' || c = '\t' || c = '\n' || c = '\r' || c = '\x0b' || c = '\x0c'

/-- Python `str.strip()` with no argument. -/
def pyStrip (s : List Char) : List Char :=
  ((s.dropWhile pyIsSpace).reverse.dropWhile pyIsSpace).reverse

/-- Python `str.isalnum` for a single ASCII character. -/
def pyIsAlnumChar (c : Char) : Bool :=
  c.isAlpha || c.isDigit

/-- Python `str.isalnum`: nonempty and every character alphanumeric. -/
def pyIsAlnum (s : List Char) : Bool :=
  !s.isEmpty && s.all pyIsAlnumChar

/-- Python `str.lower` (ASCII). -/
def pyLower (s : List Char) : List Char :=
  s.map Char.toLower

/-- Python slicing loop `for i in range(0, len(l), size): l[i:i+size]`.
`size = 0` never occurs at any call site (sizes used: 5000, 1000, 500, 10). -/
def pyChunks (size : Nat) : List α → List (List α)
  | [] => []
  | x :: rest =>
    if _h : size = 0 then []
    else (x :: rest).take size :: pyChunks size ((x :: rest).drop size)
termination_by l => l.length
decreasing_by
  simp only [List.length_drop, List.length_cons]
  omega

/-! ### src/utils/base_id_utils.py -/

/-- `validate_base_id` (src/utils/base_id_utils.py:129-150): rejects the
empty string, strips whitespace, then requires the prefix `app`, length
strictly greater than 3, and that the suffix with underscores removed is
nonempty and alphanumeric (`base_id[3:].replace('_','').isalnum()`). -/
def validate_base_id (s : List Char) : Bool :=
  if s.isEmpty then false
  else
    let t := pyStrip s
    decide (t.take 3 = ['a', 'p', 'p']) && decide (3 < t.length)
      && pyIsAlnum ((t.drop 3).filter (fun c => !(c = '_')))

/-- The pattern the spec states for tenant ids: `app[A-Za-z0-9_]{8,20}`,
anchored (prefix `app`, then 8 to 20 alphanumeric-or-underscore characters). -/
def specTenantPattern (s : List Char) : Bool :=
  decide (s.take 3 = ['a', 'p', 'p']) &&
    (let r := s.drop 3
     decide (8 ≤ r.length) && decide (r.length ≤ 20) &&
       r.all (fun c => pyIsAlnumChar c || c = '_'))

/-- What `validate_base_id` actually accepts: after stripping, prefix
`app`, a nonempty suffix of alphanumerics/underscores containing at
least one alphanumeric; no 8-20 length bound on the suffix. -/
def amendedTenantPattern (s : List Char) : Bool :=
  !s.isEmpty &&
    (let t := pyStrip s
     decide (t.take 3 = ['a', 'p', 'p']) && decide (3 < t.length) &&
       (t.drop 3).all (fun c => pyIsAlnumChar c || c = '_') &&
       (t.drop 3).any pyIsAlnumChar)

/-! ### src/utils/gender.py -/

/-- `filter_by_gender` (src/utils/gender.py:145-178).  The follower map
is an association list (insertion-ordered, like a Python dict); the
target gender is lowercased and compared against the two valid targets;
anything else yields the empty dict. -/
def filter_by_gender (followers_gender : List (String × String)) (target_gender : List Char) :
    List (String × String) :=
  if pyLower target_gender = ['m', 'a', 'l', 'e'] then
    followers_gender.filter (fun p => decide (p.2 = "male") || decide (p.2 = "unknown"))
  else if pyLower target_gender = ['f', 'e', 'm', 'a', 'l', 'e'] then
    followers_gender.filter (fun p => decide (p.2 = "female") || decide (p.2 = "unknown"))
  else
    []

/-! ### Data model: store rows -/

/-- One element of the `profiles` JSON payload; `id`/`username`/`full_name`
keys may be absent (`Option`). -/
structure InProfile where
  id? : Option String
  username? : Option String
  full_name? : Option String
deriving DecidableEq

/-- A validated profile (`id` and `username` present, `full_name` defaulted). -/
structure ValidProfile where
  id : String
  username : String
  full_name : String
deriving DecidableEq

/-- One `raw_scraped_profiles` row. -/
structure RawRow where
  id : String
  username : String
  full_name : String
  scraped_at : Nat
  base_id : String
deriving DecidableEq

/-- One `global_usernames` row. -/
structure GlobalRow where
  id : String
  username : String
  full_name : String
  used : Bool
  created_at : Nat
  base_id : String
deriving DecidableEq

/-- The profile-store tables touched by ingestion. -/
structure Store where
  raw_scraped_profiles : List RawRow
  global_usernames : List GlobalRow
deriving DecidableEq

/-- One `daily_assignments` row (column `id` is the profile id). -/
structure Assignment where
  assignment_id : String
  campaign_id : String
  va_table_number : Nat
  position : Nat
  id : String
  username : String
  full_name : String
  base_id : String
  status : String
  assigned_at : Nat
  updated_at : Nat
deriving DecidableEq

/-- One `campaigns` row. -/
structure Campaign where
  campaign_id : String
  campaign_date : Nat
  total_assigned : Nat
  status : Bool
  base_id : String
deriving DecidableEq

/-- One Airtable record: the number of the `Daily_Outreach_Table_XX` it
lives in, its Airtable record id, and its `id` / `progress_status`
fields (absent fields are `none`). -/
structure ExtRecord where
  table : Nat
  rec_id : String
  field_id? : Option String
  progress_status? : Option String
deriving DecidableEq

/-- The four assignment states of the spec's data model. -/
def stateEnum : List String :=
  ["pending", "followed", "unfollow", "completed"]

/-! ### src/utils/batch_processor.py -/

/-- Validation pass of `batch_insert_profiles` (lines 57-67): drop inputs
missing `id` or `username`, default `full_name` to the empty string. -/
def validateProfiles (profiles : List InProfile) : List ValidProfile :=
  profiles.filterMap (fun p =>
    match p.id?, p.username? with
    | some i, some u => some { id := i, username := u, full_name := p.full_name?.getD "" }
    | _, _ => none)

/-- Existence probe of `batch_insert_profiles` (lines 87-107): the input
ids are chunked by 5000 and each chunk is matched against
`global_usernames` by `id` alone -- the query carries no `base_id`
filter, so rows of every tenant are visible to it. -/
def probeExisting (globalRows : List GlobalRow) (allIds : List String) : List String :=
  ((pyChunks 5000 allIds).map (fun chunk =>
    (globalRows.filter (fun g => chunk.contains g.id)).map (fun g => g.id))).flatten

/-- The `raw_records` built by `batch_insert_profiles` (lines 120-126):
one per valid input, stamped with the current time and the tenant id. -/
def rawRecordsOf (valid : List ValidProfile) (base_id : String) (now : Nat) : List RawRow :=
  valid.map (fun p =>
    ({ id := p.id, username := p.username, full_name := p.full_name,
       scraped_at := now, base_id := base_id } : RawRow))

/-- The `global_records` built by `batch_insert_profiles` (lines 129-137):
only valid inputs whose id the existence probe did not report. -/
def globalRecordsOf (valid : List ValidProfile) (existing : List String) (base_id : String)
    (now : Nat) : List GlobalRow :=
  (valid.filter (fun p => !existing.contains p.id)).map (fun p =>
    ({ id := p.id, username := p.username, full_name := p.full_name,
       used := false, created_at := now, base_id := base_id } : GlobalRow))

/-- `batch_insert_profiles` (src/utils/batch_processor.py:13-210), happy
path: every bulk insert succeeds.  Returns the new store and
`(inserted_raw, added_to_global, skipped_existing)`. -/
def batch_insert_profiles (st : Store) (profiles : List InProfile) (base_id : String)
    (batch_size : Nat) (now : Nat) : Store × Nat × Nat × Nat :=
  let valid := validateProfiles profiles
  if valid.isEmpty then (st, 0, 0, 0)
  else
    let existing := probeExisting st.global_usernames (valid.map (fun p => p.id))
    let skipped := (valid.filter (fun p => existing.contains p.id)).length
    let rawChunks := pyChunks batch_size (rawRecordsOf valid base_id now)
    let globalChunks := pyChunks batch_size (globalRecordsOf valid existing base_id now)
    ({ raw_scraped_profiles := st.raw_scraped_profiles ++ rawChunks.flatten,
       global_usernames := st.global_usernames ++ globalChunks.flatten },
     (rawChunks.map List.length).sum, (globalChunks.map List.length).sum, skipped)

/-! ### src/app.py: lifecycle and sync operations -/

/-- Update every `daily_assignments` row with the given `assignment_id`
(the source updates by `.eq('assignment_id', ...)` with no other filter). -/
def updateStatusById (db : List Assignment) (aid : String) (s : String) : List Assignment :=
  db.map (fun a => if a.assignment_id = aid then { a with status := s } else a)

/-- Selection predicate of `mark_unfollow_due` (src/app.py:1759-1763):
`status = 'followed' AND assigned_at <= now - 7d`.  The query carries no
`base_id` filter. -/
def followedDue (cutoff : Nat) (a : Assignment) : Bool :=
  decide (a.status = "followed") && decide (a.assigned_at ≤ cutoff)

/-- `mark_unfollow_due` (src/app.py:1714-1848), internal-store effect:
each selected row is updated to `status = 'unfollow'` by its
`assignment_id`; returns the updated table and `marked_count`.  The
`base_id` argument is used by the source only to address the tenant's
Airtable base (the external write phase, omitted here); the storage
query itself is not scoped by it. -/
def mark_unfollow_due (base_id : String) (cutoff : Nat) (db : List Assignment) :
    List Assignment × Nat :=
  let due := db.filter (followedDue cutoff)
  (due.foldl (fun acc r => updateStatusById acc r.assignment_id "unfollow") db, due.length)

/-- Selection predicate of `delete_completed_after_delay`
(src/app.py:1896-1900): `status = 'completed' AND updated_at <= now - 24h`;
again no `base_id` filter. -/
def completedDue (cutoff : Nat) (a : Assignment) : Bool :=
  decide (a.status = "completed") && decide (a.updated_at ≤ cutoff)

/-- First occurrences of a list of table numbers, in order (Python dict
key order for the `by_table` grouping dictionaries). -/
def dedupKeepFirst : List Nat → List Nat
  | [] => []
  | x :: xs => x :: dedupKeepFirst (xs.filter (fun y => !(y = x)))
termination_by l => l.length
decreasing_by
  have := List.length_filter_le (fun y => !(y = x)) xs
  simp only [List.length_cons]
  omega

/-- The `by_table` grouping used by the lifecycle endpoints and the push
sync: records with `va_table_number > 0` grouped by table number, keys
in first-appearance order. -/
def byTable (rows : List Assignment) : List (Nat × List Assignment) :=
  (dedupKeepFirst ((rows.filter (fun a => 0 < a.va_table_number)).map
      (fun a => a.va_table_number))).map
    (fun t => (t, rows.filter (fun a => a.va_table_number = t)))

/-- For one table's deletion pass (src/app.py:1934-1940): for each
selected assignment, the first Airtable record of that table whose `id`
field equals the assignment's profile id contributes its record id. -/
def extDeleteIds (ext : List ExtRecord) (t : Nat) (assigns : List Assignment) : List String :=
  assigns.filterMap (fun a =>
    (ext.find? (fun r => decide (r.table = t) && decide (r.field_id? = some a.id))).map
      (fun r => r.rec_id))

/-- `delete_completed_after_delay` (src/app.py:1851-1990).  `extFail t`
injects an Airtable failure for table `t` (the whole per-table block is
one try/except that logs and continues, line 1952-1956).  The Supabase
deletion loop (lines 1962-1968) then runs over the full selected set,
regardless of the external outcome.  Returns
(internal table, external store, airtable_deleted, deleted_count). -/
def delete_completed_after_delay (base_id : String) (cutoff : Nat) (extFail : Nat → Bool)
    (db : List Assignment) (ext : List ExtRecord) :
    List Assignment × List ExtRecord × Nat × Nat :=
  let completed := db.filter (completedDue cutoff)
  let groups := byTable completed
  let extResult := groups.foldl
    (fun (acc : List ExtRecord × Nat) g =>
      if extFail g.1 then acc
      else
        let ids := extDeleteIds acc.1 g.1 g.2
        (acc.1.filter (fun r => !ids.contains r.rec_id), acc.2 + ids.length))
    (ext, 0)
  let db2 := completed.foldl
    (fun acc r => acc.filter (fun a => !(a.assignment_id = r.assignment_id))) db
  (db2, extResult.1, extResult.2, completed.length)

/-- One record of the pull sync (src/app.py:1659-1684): skip records with
a falsy `id` or `progress_status` field; locate the first internal row
with the same profile id and table number (no `base_id` filter); update
its status by `assignment_id` when it differs, counting the update. -/
def pullRecord (t : Nat) (dbc : List Assignment × Nat) (r : ExtRecord) :
    List Assignment × Nat :=
  match r.field_id?, r.progress_status? with
  | some pid, some s =>
    if pid = "" || s = "" then dbc
    else
      match dbc.1.find? (fun a => decide (a.id = pid) && decide (a.va_table_number = t)) with
      | some a => if a.status = s then dbc else (updateStatusById dbc.1 a.assignment_id s, dbc.2 + 1)
      | none => dbc
  | _, _ => dbc

/-- `sync_airtable_statuses` (src/app.py:1600-1711), store effect: walks
tables 1..N, fetching each table's Airtable records and applying
`pullRecord`; returns the updated table and `synced_count`. -/
def sync_airtable_statuses (num_va_tables : Nat) (ext : List ExtRecord)
    (db : List Assignment) : List Assignment × Nat :=
  (List.range' 1 num_va_tables).foldl
    (fun dbc t => (ext.filter (fun r => r.table = t)).foldl (pullRecord t) dbc)
    (db, 0)

/-- Aging predicate of the `run_daily` cleanup step (src/app.py:2323-2328):
`assigned_at` within the day exactly 7 days ago and `status = 'pending'`. -/
def runDailyAgeDue (lo hi : Nat) (a : Assignment) : Bool :=
  decide (lo ≤ a.assigned_at) && decide (a.assigned_at < hi) && decide (a.status = "pending")

/-- The mark-for-unfollow step of `run_daily` (src/app.py:2322-2337): each
selected row's status is set to the string `'to_unfollow'`. -/
def run_daily_mark_unfollow (lo hi : Nat) (db : List Assignment) : List Assignment × Nat :=
  let due := db.filter (runDailyAgeDue lo hi)
  (due.foldl (fun acc r => updateStatusById acc r.assignment_id "to_unfollow") db, due.length)

/-! ### src/app.py: distribution -/

/-- The assignment loop of `distribute_campaign` (src/app.py:1066-1093):
walk the shuffled placeholder rows, writing `(va_table_number, position)`
pairs, wrapping the position at `profiles_per_table` and stopping once
table `num_va_tables` is full; rows not reached are left untouched. -/
def distLoop (num_va_tables profiles_per_table : Nat) : Nat → Nat → List Assignment → List Assignment
  | _, _, [] => []
  | t, p, a :: rest =>
    let a2 := { a with va_table_number := t, position := p }
    if profiles_per_table < p + 1 then
      if num_va_tables < t + 1 then a2 :: rest
      else a2 :: distLoop num_va_tables profiles_per_table (t + 1) 1 rest
    else a2 :: distLoop num_va_tables profiles_per_table t (p + 1) rest

/-- `distribute_campaign` step 4 applied to the shuffled placeholder list
(the shuffle is a permutation drawn from fresh entropy; theorems below
quantify over an arbitrary shuffled list). -/
def distribute_campaign (num_va_tables profiles_per_table : Nat) (ps : List Assignment) :
    List Assignment :=
  distLoop num_va_tables profiles_per_table 1 1 ps

/-- Contiguous packing by flat slot offset: the row at offset `off` gets
table `off / M + 1` and position `off % M + 1`. -/
def mapSlots (profiles_per_table : Nat) : Nat → List Assignment → List Assignment
  | _, [] => []
  | off, a :: rest =>
    { a with va_table_number := off / profiles_per_table + 1,
             position := off % profiles_per_table + 1 }
      :: mapSlots profiles_per_table (off + 1) rest

/-! ### src/app.py: push sync -/

/-- The fetch of `airtable_sync` step 2 (src/app.py:1228-1235): rows of
this campaign and tenant with `va_table_number > 0`. -/
def syncRows (campaign_id base_id : String) (db : List Assignment) : List Assignment :=
  db.filter (fun a =>
    decide (a.campaign_id = campaign_id) && decide (a.base_id = base_id)
      && decide (0 < a.va_table_number))

/-- The per-table sync loop (src/app.py:1284-1316): `ok t` is the outcome
of `sync_with_retry` for table `t` (after its 3 retries); a successful
table adds 1 to `tables_synced` and its record count to `records_synced`,
a failed one is skipped. -/
def syncTables (ok : Nat → Bool) (groups : List (Nat × List Assignment)) : Nat × Nat :=
  groups.foldl (fun acc g => if ok g.1 then (acc.1 + 1, acc.2 + g.2.length) else acc) (0, 0)

/-- `airtable_sync` (src/app.py:1124-1345), store effect: computes
`tables_synced` / `records_synced`, then writes
`campaign_status = (tables_synced == num_va_tables and records_synced > 0)`
(line 1323) to the campaign row.  Returns
(campaigns, tables_synced, records_synced, campaign_status). -/
def airtable_sync (ok : Nat → Bool) (num_va_tables : Nat) (campaign_id base_id : String)
    (db : List Assignment) (campaigns : List Campaign) :
    List Campaign × Nat × Nat × Bool :=
  let groups := byTable (syncRows campaign_id base_id db)
  let s := syncTables ok groups
  let campaign_status := decide (s.1 = num_va_tables) && decide (0 < s.2)
  (campaigns.map (fun c =>
      if decide (c.campaign_id = campaign_id) && decide (c.base_id = base_id) then
        { c with status := campaign_status }
      else c),
   s.1, s.2, campaign_status)

/-- The queues of this campaign that were fully pushed (every chunk of
the queue accepted by the external store). -/
def fullyPushed (ok : Nat → Bool) (campaign_id base_id : String) (db : List Assignment) :
    List (Nat × List Assignment) :=
  (byTable (syncRows campaign_id base_id db)).filter (fun g => ok g.1)

/-! ### src/tasks.py -/

/-- The payload a successful `scrape_account_batch` returns (tasks.py:143-149):
its filtered profiles and the batch's scraped/filtered counts. -/
structure BatchResult where
  profiles : List ValidProfile
  total_scraped : Nat
  total_filtered : Nat
deriving DecidableEq

/-- One `scrape_jobs` row (the fields `aggregate_scrape_results` touches). -/
structure JobRow where
  job_id : String
  status : String
  total_scraped : Nat
  total_filtered : Nat
  profiles_scraped : Nat
  progress : Nat
  error_message? : Option String
deriving DecidableEq

/-- One `scrape_results` row. -/
structure ResultRow where
  job_id : String
  profile_id : String
  username : String
  full_name : String
deriving DecidableEq

/-- `aggregate_scrape_results` (src/tasks.py:174-271), happy path of the
function body (its own statements raise nothing).  A batch-level failure
arriving at the barrier is any entry that is falsy or lacks a
`profiles` key (the `if result and 'profiles' in result` guard,
line 197), modelled as `none`.  Good entries are concatenated, inserted
into `scrape_results` in chunks of 1000, and the job is updated to
`status = 'completed'`, `progress = 100` (lines 230-242): no branch
inspects the batch entries for failures. -/
def aggregate_scrape_results (batch_results : List (Option BatchResult)) (job : JobRow)
    (results : List ResultRow) : JobRow × List ResultRow :=
  let good := batch_results.filterMap id
  let all_profiles := (good.map (fun r => r.profiles)).flatten
  let total_scraped := (good.map (fun r => r.total_scraped)).sum
  let total_filtered := (good.map (fun r => r.total_filtered)).sum
  let inserted := ((pyChunks 1000 all_profiles).map (fun chunk =>
      chunk.map (fun p =>
        ({ job_id := job.job_id, profile_id := p.id, username := p.username,
           full_name := p.full_name } : ResultRow)))).flatten
  ({ job with
      status := "completed", total_scraped := total_scraped,
      total_filtered := total_filtered, profiles_scraped := all_profiles.length,
      progress := 100 },
   results ++ inserted)

/-- The parameter list of `batch_insert_profiles`
(src/utils/batch_processor.py:13-19): name and whether it has a default. -/
def batchInsertParams : List (String × Bool) :=
  [("supabase", false), ("profiles", false), ("base_id", false),
   ("batch_size", true), ("rate_limit_delay", true)]

/-- Python call binding: parameters left unbound by `nPositional`
positional arguments and the given keyword arguments, and lacking a
default.  A nonempty result raises `TypeError` at the call. -/
def missingArgs (params : List (String × Bool)) (nPositional : Nat) (kwargs : List String) :
    List String :=
  (params.enum.filter (fun q =>
    !(decide (q.1 < nPositional) || kwargs.contains q.2.1 || q.2.2))).map (fun q => q.2.1)

/-- Outcome of binding a Python call against a signature. -/
def bindCall (params : List (String × Bool)) (nPositional : Nat) (kwargs : List String) :
    Except String Unit :=
  match missingArgs params nPositional kwargs with
  | [] => Except.ok ()
  | m :: _ => Except.error ("TypeError: missing required positional argument " ++ m)

/-- `ingest_profiles_batch` (src/tasks.py:274-316).  Its body calls
`batch_insert_profiles(supabase, profiles, batch_size=500)` -- two
positional arguments plus the keyword `batch_size` (tasks.py:298-302),
bound against `batchInsertParams`.  On a binding error the call raises
before touching the store (the task's except clause re-raises); the ok
branch -- unreachable for this call shape, since `base_id` stays
unbound -- would run the insertion, for which no `base_id` value exists
at the call site. -/
def ingest_profiles_batch (st : Store) (profiles : List InProfile) (now : Nat) :
    Store × Except String (Nat × Nat × Nat) :=
  match bindCall batchInsertParams 2 ["batch_size"] with
  | Except.error e => (st, Except.error e)
  | Except.ok _ => (st, Except.error "unreachable: base_id unbound")

/-! ### Concrete fixtures for counterexamples and witnesses -/

/-- An assignment row belonging to tenant `appBBBBBBBB`, in state
`followed` and old enough to be due for unfollow marking. -/
def rowTenantB : Assignment :=
  { assignment_id := "a1", campaign_id := "c1", va_table_number := 1, position := 1,
    id := "p1", username := "u1", full_name := "f1", base_id := "appBBBBBBBB",
    status := "followed", assigned_at := 0, updated_at := 0 }

/-- A completed assignment row, 24h past its last update, in queue 1. -/
def rowCompleted : Assignment :=
  { assignment_id := "a2", campaign_id := "c1", va_table_number := 1, position := 1,
    id := "p2", username := "u2", full_name := "f2", base_id := "appAAAAAAAA",
    status := "completed", assigned_at := 0, updated_at := 0 }

/-- The external record mirroring `rowCompleted` in `Daily_Outreach_Table_01`. -/
def extRecCompleted : ExtRecord :=
  { table := 1, rec_id := "rec1", field_id? := some "p2",
    progress_status? := some "completed" }

/-- A pending assignment row whose `assigned_at` falls in the aging window. -/
def rowPending : Assignment :=
  { assignment_id := "a3", campaign_id := "c1", va_table_number := 1, position := 1,
    id := "p3", username := "u3", full_name := "f3", base_id := "appAAAAAAAA",
    status := "pending", assigned_at := 5, updated_at := 5 }

/-- A placeholder assignment (queue_index = position = 0) for profile `n`. -/
def mkPlaceholder (n : String) : Assignment :=
  { assignment_id := "as" ++ n, campaign_id := "c1", va_table_number := 0, position := 0,
    id := n, username := "u" ++ n, full_name := "f" ++ n, base_id := "appAAAAAAAA",
    status := "pending", assigned_at := 0, updated_at := 0 }

/-- Seven placeholder assignments: one more than fits into 2 queues of 3 slots. -/
def placeholders7 : List Assignment :=
  [mkPlaceholder "1", mkPlaceholder "2", mkPlaceholder "3", mkPlaceholder "4",
   mkPlaceholder "5", mkPlaceholder "6", mkPlaceholder "7"]

/-- A distributed assignment of campaign `c1`, tenant `appA1234567`, queue `t`. -/
def mkDistributed (t : Nat) (n : String) : Assignment :=
  { assignment_id := "ad" ++ n, campaign_id := "c1", va_table_number := t, position := 1,
    id := n, username := "u" ++ n, full_name := "f" ++ n, base_id := "appA1234567",
    status := "pending", assigned_at := 0, updated_at := 0 }

/-- Two distributed assignments, one in each of two queues. -/
def dbTwoQueues : List Assignment :=
  [mkDistributed 1 "q1", mkDistributed 2 "q2"]

/-- The campaign row the push sync updates. -/
def campaignC1 : Campaign :=
  { campaign_id := "c1", campaign_date := 0, total_assigned := 2, status := false,
    base_id := "appA1234567" }

/-- A job row as the aggregation barrier sees it (status `processing`). -/
def jobProcessing : JobRow :=
  { job_id := "j1", status := "processing", total_scraped := 0, total_filtered := 0,
    profiles_scraped := 0, progress := 0, error_message? := none }

/-- One successful batch result carrying one filtered profile. -/
def batchOkOne : BatchResult :=
  { profiles := [{ id := "1", username := "u", full_name := "f" }],
    total_scraped := 1, total_filtered := 1 }

/-- A well-formed ingestion payload entry. -/
def profIn : InProfile :=
  { id? := some "p1", username? := some "u1", full_name? := some "f1" }

/-- The empty profile store. -/
def storeEmpty : Store :=
  { raw_scraped_profiles := [], global_usernames := [] }

/-! ### Helper lemmas -/

/-- Concatenating the Python-style chunks of a list recovers the list. -/
theorem pyChunks_flatten {α : Type} (size : Nat) (h : 0 < size) :
    ∀ l : List α, (pyChunks size l).flatten = l
  | [] => by rw [pyChunks]; rfl
  | x :: rest => by
    rw [pyChunks]
    rw [dif_neg (Nat.pos_iff_ne_zero.mp h)]
    rw [List.flatten_cons]
    rw [pyChunks_flatten size h ((x :: rest).drop size)]
    exact List.take_append_drop size (x :: rest)
termination_by l => l.length
decreasing_by
  simp only [List.length_drop, List.length_cons]
  omega

/-- Chunked length sums recover the length. -/
theorem pyChunks_sum_length {α : Type} (size : Nat) (h : 0 < size) (l : List α) :
    ((pyChunks size l).map List.length).sum = l.length := by
  have := congrArg List.length (pyChunks_flatten size h l)
  simpa [List.length_flatten] using this

/-- Filtering out underscores, the remaining characters are all
alphanumeric iff every character was alphanumeric or an underscore. -/
theorem filter_underscore_all (l : List Char) :
    (l.filter (fun c => !(c = '_'))).all pyIsAlnumChar
      = l.all (fun c => pyIsAlnumChar c || c = '_') := by
  induction l with
  | nil => rfl
  | cons c rest ih =>
    by_cases hc : c = '_'
    · subst hc
      rw [List.filter_cons_of_neg (by simp), List.all_cons, ih]
      have h1 : (pyIsAlnumChar '_' || decide ('_' = '_')) = true := by decide
      rw [h1, Bool.true_and]
    · rw [List.filter_cons_of_pos (by simp [hc]), List.all_cons, List.all_cons, ih]
      have h2 : (pyIsAlnumChar c || decide (c = '_')) = pyIsAlnumChar c := by
        simp [hc]
      rw [h2]

/-- `l.filter (· ≠ '_')` is nonempty-and-alphanumeric iff every character
of `l` is alphanumeric or an underscore and at least one is alphanumeric. -/
theorem pyIsAlnum_filter_underscore (l : List Char) :
    pyIsAlnum (l.filter (fun c => !(c = '_'))) =
      (l.all (fun c => pyIsAlnumChar c || c = '_') && l.any pyIsAlnumChar) := by
  induction l with
  | nil => rfl
  | cons c rest ih =>
    by_cases hc : c = '_'
    · subst hc
      rw [List.filter_cons_of_neg (by simp), List.all_cons, List.any_cons, ih]
      have h1 : pyIsAlnumChar '_' = false := rfl
      rw [h1]
      simp
    · rw [List.filter_cons_of_pos (by simp [hc])]
      cases ha : pyIsAlnumChar c
      · simp [pyIsAlnum, List.all_cons, List.any_cons, ha, hc]
      · simp [pyIsAlnum, List.all_cons, List.any_cons, ha, hc, filter_underscore_all,
          Bool.or_comm]

/-! ### Claim C7: tenant-id validator -/

/-- Claim C7 counterexample: `validate_base_id` accepts `app1`, whose
suffix has length 1, while the spec pattern `app[A-Za-z0-9_]{8,20}`
rejects it -- the validator does not enforce the 8-20 length bound. -/
theorem validate_base_id_pattern_cex :
    validate_base_id ['a', 'p', 'p', '1'] = true
      ∧ specTenantPattern ['a', 'p', 'p', '1'] = false := by
  decide

/-- Claim C7 (amended): the validator accepts a string iff, after
stripping surrounding whitespace, the original string is nonempty, the
stripped string starts with `app` and is longer than 3 characters, every
suffix character is alphanumeric or an underscore, and at least one
suffix character is alphanumeric.  There is no 8-20 bound on the suffix
length, and all-underscore suffixes are rejected. -/
theorem validate_base_id_amended (s : List Char) :
    validate_base_id s = amendedTenantPattern s := by
  unfold validate_base_id amendedTenantPattern
  cases hs : s.isEmpty
  · simp only [if_neg (by simp : ¬(false = true)), Bool.not_false, Bool.true_and,
      pyIsAlnum_filter_underscore, Bool.and_assoc]
  · simp

/-! ### Claim C10: gender filter with an invalid target -/

/-- Claim C10: for every follower-to-gender map and every target that is
neither `male` nor `female` after lowercasing, `filter_by_gender`
returns the empty map. -/
theorem filter_by_gender_invalid_target (fg : List (String × String)) (t : List Char)
    (h1 : pyLower t ≠ ['m', 'a', 'l', 'e']) (h2 : pyLower t ≠ ['f', 'e', 'm', 'a', 'l', 'e']) :
    filter_by_gender fg t = [] := by
  unfold filter_by_gender
  rw [if_neg h1, if_neg h2]

/-- Witness for claim C10 at the concrete target `Both`. -/
theorem filter_by_gender_invalid_target_witness :
    pyLower ['B', 'o', 't', 'h'] ≠ ['m', 'a', 'l', 'e']
    ∧ pyLower ['B', 'o', 't', 'h'] ≠ ['f', 'e', 'm', 'a', 'l', 'e']
    ∧ filter_by_gender [("alice", "female"), ("bob", "unknown")] ['B', 'o', 't', 'h'] = [] :=
  ⟨by decide, by decide,
   filter_by_gender_invalid_target _ _ (by decide) (by decide)⟩

/-! ### Claim C9: background ingestion task never reaches insertion -/

/-- Claim C9: for every store, profile list and timestamp, the
`ingest_profiles_batch` body fails binding its
`batch_insert_profiles(supabase, profiles, batch_size=500)` call --
`base_id` is a mandatory third parameter and stays unbound -- so the
task raises a `TypeError` and leaves the store untouched. -/
theorem ingest_profiles_batch_always_errors (st : Store) (profiles : List InProfile)
    (now : Nat) :
    ingest_profiles_batch st profiles now =
      (st, Except.error "TypeError: missing required positional argument base_id") := by
  rfl

/-! ### Claim C1: tenant isolation -/

/-- Folding `updateStatusById` over a selected record list sets the
status of exactly the rows whose `assignment_id` occurs in it. -/
theorem foldl_updateStatusById (s : String) (due : List Assignment) :
    ∀ db : List Assignment,
      due.foldl (fun acc r => updateStatusById acc r.assignment_id s) db
        = db.map (fun a =>
            if due.any (fun r => a.assignment_id = r.assignment_id) then
              { a with status := s }
            else a) := by
  induction due with
  | nil =>
    intro db
    simp
  | cons r rest ih =>
    intro db
    rw [List.foldl_cons, ih]
    unfold updateStatusById
    rw [List.map_map]
    apply List.map_congr_left
    intro a _
    simp only [Function.comp_apply]
    by_cases h : a.assignment_id = r.assignment_id
    · simp [h]
    · simp [h]

/-- Claim C1 counterexample: `mark_unfollow_due` run for tenant
`appAAAAAAAA` selects and rewrites the `followed` row of tenant
`appBBBBBBBB`, and its `marked_count` differs from the run with the
other tenant's rows absent -- the storage query is not filtered by the
tenant id, so the operation's result and writes depend on another
tenant's rows. -/
theorem tenant_isolation_cex :
    (mark_unfollow_due "appAAAAAAAA" 10 [rowTenantB]).2 = 1
    ∧ (mark_unfollow_due "appAAAAAAAA" 10 ([] : List Assignment)).2 = 0
    ∧ (mark_unfollow_due "appAAAAAAAA" 10 [rowTenantB]).1
        = [{ rowTenantB with status := "unfollow" }]
    ∧ rowTenantB.base_id ≠ "appAAAAAAAA" := by
  refine ⟨rfl, rfl, ?_, by decide⟩
  decide

/-- Claim C1 (amended): the campaign-scoped queries (ingest existence
check, selection, distribution fetch, push-sync fetch) are filtered by
`base_id`, but the lifecycle and pull-sync queries and the bulk-ingest
existence probe are not.  In particular `mark_unfollow_due` selects rows
by state and age alone: for any requesting tenant, every row with
`status = 'followed'` and `assigned_at` past the cutoff is rewritten to
`unfollow`, whatever its own `base_id`. -/
theorem mark_unfollow_due_cross_tenant (b : String) (cutoff : Nat) (db : List Assignment)
    (a : Assignment) (ha : a ∈ db) (hdue : followedDue cutoff a = true) :
    { a with status := "unfollow" } ∈ (mark_unfollow_due b cutoff db).1 := by
  show { a with status := "unfollow" }
      ∈ (db.filter (followedDue cutoff)).foldl
          (fun acc r => updateStatusById acc r.assignment_id "unfollow") db
  rw [foldl_updateStatusById]
  refine List.mem_map.mpr ⟨a, ha, ?_⟩
  rw [if_pos]
  exact List.any_eq_true.mpr ⟨a, List.mem_filter.mpr ⟨ha, hdue⟩, by simp⟩

/-- Witness for the amended claim C1: the cross-tenant write happens on
the concrete tenant-B row. -/
theorem mark_unfollow_due_cross_tenant_witness :
    rowTenantB ∈ [rowTenantB] ∧ followedDue 10 rowTenantB = true
    ∧ { rowTenantB with status := "unfollow" }
        ∈ (mark_unfollow_due "appAAAAAAAA" 10 [rowTenantB]).1 :=
  ⟨List.mem_singleton.mpr rfl, by decide,
   mark_unfollow_due_cross_tenant "appAAAAAAAA" 10 [rowTenantB] rowTenantB
     (List.mem_singleton.mpr rfl) (by decide)⟩

/-! ### Claim C3: aggregation barrier and batch failures -/

/-- Pulling a map inside the Python-style chunks of a list is the same
as mapping over the list. -/
theorem flatten_chunks_map {α β : Type} (size : Nat) (h : 0 < size) (f : α → β)
    (l : List α) :
    ((pyChunks size l).map (fun chunk => chunk.map f)).flatten = l.map f := by
  calc ((pyChunks size l).map (fun chunk => chunk.map f)).flatten
      = ((pyChunks size l).map (List.map f)).flatten := rfl
    _ = ((pyChunks size l).flatten).map f := (List.map_flatten ..).symm
    _ = l.map f := by rw [pyChunks_flatten size h l]

/-- Claim C3 counterexample: the barrier input holds one successful
batch and one batch-level failure, yet `aggregate_scrape_results` sets
the job's status to `completed`, not `failed`. -/
theorem aggregate_failure_still_completed_cex :
    (aggregate_scrape_results [some batchOkOne, none] jobProcessing []).1.status = "completed"
    ∧ (aggregate_scrape_results [some batchOkOne, none] jobProcessing []).1.status ≠ "failed"
    ∧ none ∈ [some batchOkOne, none] := by
  refine ⟨rfl, by decide, by decide⟩

/-- Claim C3 (amended): the aggregation task ignores batch-level
failures in its input: it persists one `scrape_results` row per profile
collected from the successful batches (the partial results) and sets the
job's status to `completed` regardless; `status = failed` is written only
by the task's own exception handler or by the failing batch task itself,
not by any inspection of the barrier input. -/
theorem aggregate_scrape_results_amended (batch_results : List (Option BatchResult))
    (job : JobRow) (results : List ResultRow) :
    (aggregate_scrape_results batch_results job results).1.status = "completed"
    ∧ (aggregate_scrape_results batch_results job results).2
        = results ++ ((batch_results.filterMap id).map (fun r => r.profiles)).flatten.map
            (fun p => ({ job_id := job.job_id, profile_id := p.id, username := p.username,
                         full_name := p.full_name } : ResultRow)) := by
  constructor
  · rfl
  · unfold aggregate_scrape_results
    simp only []
    rw [flatten_chunks_map 1000 (by norm_num)]

/-! ### Claim C2: delayed deletion and external failures -/

/-- Folding element-wise filters equals one filter with the conjunction. -/
theorem foldl_filter_ne (completed : List Assignment) :
    ∀ db : List Assignment,
      completed.foldl
          (fun acc r => acc.filter (fun a => !(a.assignment_id = r.assignment_id))) db
        = db.filter (fun a =>
            completed.all (fun r => !(a.assignment_id = r.assignment_id))) := by
  induction completed with
  | nil =>
    intro db
    simp
  | cons r rest ih =>
    intro db
    rw [List.foldl_cons, ih, List.filter_filter]
    apply List.filter_congr
    intro a _
    rw [List.all_cons, Bool.and_comm]

/-- Claim C2 counterexample: the single selected row sits in queue 1,
the external deletion for every queue fails (`extFail` constantly true,
`airtable_deleted = 0`, the external record survives), yet the internal
row is deleted anyway. -/
theorem delete_completed_external_failure_cex :
    (delete_completed_after_delay "appAAAAAAAA" 10 (fun _ => true)
        [rowCompleted] [extRecCompleted]).1 = []
    ∧ (delete_completed_after_delay "appAAAAAAAA" 10 (fun _ => true)
        [rowCompleted] [extRecCompleted]).2.1 = [extRecCompleted]
    ∧ (delete_completed_after_delay "appAAAAAAAA" 10 (fun _ => true)
        [rowCompleted] [extRecCompleted]).2.2.1 = 0
    ∧ rowCompleted.va_table_number = 1 := by
  refine ⟨by decide, ?_, ?_, rfl⟩
  · simp [delete_completed_after_delay, byTable, dedupKeepFirst, completedDue, rowCompleted]
  · simp [delete_completed_after_delay, byTable, dedupKeepFirst, completedDue, rowCompleted]

/-- Claim C2 (amended): the external deletion is attempted first,
batched by queue in chunks of 10, but a queue-level external failure
does not block the internal delete: the Supabase loop deletes every
selected row (state `completed`, `updated_at` past the cutoff)
unconditionally, so no row with a selected `assignment_id` survives,
whatever the external failure pattern. -/
theorem delete_completed_internal_unconditional (b : String) (cutoff : Nat)
    (extFail : Nat → Bool) (db : List Assignment) (ext : List ExtRecord)
    (a : Assignment) (ha : a ∈ db) (hdue : completedDue cutoff a = true) :
    ∀ x ∈ (delete_completed_after_delay b cutoff extFail db ext).1,
      x.assignment_id ≠ a.assignment_id := by
  intro x hx
  have hx2 : x ∈ (db.filter (completedDue cutoff)).foldl
      (fun acc r => acc.filter (fun y => !(y.assignment_id = r.assignment_id))) db := hx
  rw [foldl_filter_ne] at hx2
  have hall := (List.mem_filter.mp hx2).2
  have ha2 : a ∈ db.filter (completedDue cutoff) := List.mem_filter.mpr ⟨ha, hdue⟩
  have := List.all_eq_true.mp hall a ha2
  simpa using this

/-- Witness for the amended claim C2: with the external store failing
for every queue, the concrete completed row is still deleted internally. -/
theorem delete_completed_internal_unconditional_witness :
    completedDue 10 rowCompleted = true
    ∧ ∀ x ∈ (delete_completed_after_delay "appAAAAAAAA" 10 (fun _ => true)
          [rowCompleted] [extRecCompleted]).1,
        x.assignment_id ≠ rowCompleted.assignment_id :=
  ⟨by decide,
   delete_completed_internal_unconditional "appAAAAAAAA" 10 (fun _ => true)
     [rowCompleted] [extRecCompleted] rowCompleted
     (List.mem_singleton.mpr rfl) (by decide)⟩

/-! ### Claim C8: assignment state enum -/

/-- Claim C8 counterexample: the `run_daily` cleanup step ages a 7-day
old pending assignment by writing the status string `to_unfollow`, which
is not one of the four enum values pending/followed/unfollow/completed. -/
theorem run_daily_writes_to_unfollow_cex :
    (run_daily_mark_unfollow 0 10 [rowPending]).1
      = [{ rowPending with status := "to_unfollow" }]
    ∧ "to_unfollow" ∉ stateEnum
    ∧ rowPending.status = "pending" := by
  refine ⟨by decide, by decide, rfl⟩

/-- A generic invariant-preservation principle for `List.foldl`. -/
theorem foldl_invariant {β γ : Type} (P : γ → Prop) (f : γ → β → γ) :
    ∀ (l : List β) (init : γ), P init → (∀ acc x, x ∈ l → P acc → P (f acc x)) →
      P (l.foldl f init) := by
  intro l
  induction l with
  | nil => intro init h _; exact h
  | cons x rest ih =>
    intro init h hstep
    exact ih (f init x) (hstep init x (by simp) h)
      (fun acc y hy hacc => hstep acc y (by simp [hy]) hacc)

/-- Statuses after `updateStatusById`: the written value or an old one. -/
theorem updateStatusById_status (db : List Assignment) (aid s : String) :
    ∀ x ∈ updateStatusById db aid s,
      x.status = s ∨ x.status ∈ db.map (fun a => a.status) := by
  intro x hx
  rcases List.mem_map.mp hx with ⟨a, ha, rfl⟩
  by_cases h : a.assignment_id = aid
  · rw [if_pos h]
    exact Or.inl rfl
  · rw [if_neg h]
    exact Or.inr (List.mem_map.mpr ⟨a, ha, rfl⟩)

/-- Every status present after the pull sync was already present in the
internal table or is the `progress_status` of some external record. -/
theorem sync_airtable_statuses_status_source (N : Nat) (ext : List ExtRecord)
    (db : List Assignment) :
    ∀ x ∈ (sync_airtable_statuses N ext db).1,
      x.status ∈ db.map (fun a => a.status)
        ∨ x.status ∈ ext.filterMap (fun r => r.progress_status?) := by
  unfold sync_airtable_statuses
  refine foldl_invariant
    (fun dbc : List Assignment × Nat => ∀ x ∈ dbc.1,
      x.status ∈ db.map (fun a => a.status)
        ∨ x.status ∈ ext.filterMap (fun r => r.progress_status?))
    (fun dbc t => (ext.filter (fun r => r.table = t)).foldl (pullRecord t) dbc)
    (List.range' 1 N) (db, 0) ?_ ?_
  · intro x hx
    exact Or.inl (List.mem_map.mpr ⟨x, hx, rfl⟩)
  · intro acc t _ hacc
    refine foldl_invariant
      (fun dbc : List Assignment × Nat => ∀ x ∈ dbc.1,
        x.status ∈ db.map (fun a => a.status)
          ∨ x.status ∈ ext.filterMap (fun r => r.progress_status?))
      (pullRecord t) (ext.filter (fun r => r.table = t)) acc hacc ?_
    intro acc2 r hr hacc2
    have hrext : r ∈ ext := (List.mem_filter.mp hr).1
    intro x hx
    unfold pullRecord at hx
    split at hx
    · rename_i pid s hfid hps
      split at hx
      · exact hacc2 x hx
      · split at hx
        · rename_i a hfind
          split at hx
          · exact hacc2 x hx
          · rcases updateStatusById_status acc2.1 a.assignment_id s x hx with h | h
            · refine Or.inr ?_
              rw [h]
              exact List.mem_filterMap.mpr ⟨r, hrext, hps⟩
            · rcases List.mem_map.mp h with ⟨y, hy, hys⟩
              rw [← hys]
              exact hacc2 y hy
        · exact hacc2 x hx
    · exact hacc2 x hx

/-- Claim C8 (amended): the selection inserts only `pending`, the
lifecycle endpoint `mark_unfollow_due` writes only `unfollow`, and the
pull sync copies the external `progress_status` verbatim (so its writes
lie in the enum only when the external values do); but `run_daily`'s
aging step writes `to_unfollow`, a value outside the four-state enum. -/
theorem assignment_states_amended (b : String) (cutoff lo hi : Nat) (N : Nat)
    (db dbp dbr : List Assignment) (ext : List ExtRecord) :
    (∀ x ∈ (mark_unfollow_due b cutoff db).1,
        x.status = "unfollow" ∨ x.status ∈ db.map (fun a => a.status))
    ∧ (∀ x ∈ (sync_airtable_statuses N ext dbp).1,
        x.status ∈ dbp.map (fun a => a.status)
          ∨ x.status ∈ ext.filterMap (fun r => r.progress_status?))
    ∧ (∀ a ∈ dbr, runDailyAgeDue lo hi a = true →
        { a with status := "to_unfollow" } ∈ (run_daily_mark_unfollow lo hi dbr).1)
    ∧ "to_unfollow" ∉ stateEnum := by
  refine ⟨?_, sync_airtable_statuses_status_source N ext dbp, ?_, by decide⟩
  · intro x hx
    have hx2 : x ∈ (db.filter (followedDue cutoff)).foldl
        (fun acc r => updateStatusById acc r.assignment_id "unfollow") db := hx
    rw [foldl_updateStatusById] at hx2
    rcases List.mem_map.mp hx2 with ⟨a, ha, rfl⟩
    by_cases h : (db.filter (followedDue cutoff)).any
        (fun r => a.assignment_id = r.assignment_id)
    · rw [if_pos h]
      exact Or.inl rfl
    · rw [if_neg h]
      exact Or.inr (List.mem_map.mpr ⟨a, ha, rfl⟩)
  · intro a ha hdue
    show { a with status := "to_unfollow" }
        ∈ (dbr.filter (runDailyAgeDue lo hi)).foldl
            (fun acc r => updateStatusById acc r.assignment_id "to_unfollow") dbr
    rw [foldl_updateStatusById]
    refine List.mem_map.mpr ⟨a, ha, ?_⟩
    rw [if_pos]
    exact List.any_eq_true.mpr ⟨a, List.mem_filter.mpr ⟨ha, hdue⟩, by simp⟩

/-- Witness for the amended claim C8: the concrete pending row is aged
to the out-of-enum status `to_unfollow` by `run_daily`'s cleanup. -/
theorem assignment_states_amended_witness :
    { rowPending with status := "to_unfollow" }
      ∈ (run_daily_mark_unfollow 0 10 [rowPending]).1 :=
  (assignment_states_amended "appAAAAAAAA" 10 0 10 1 [] [] [rowPending] []).2.2.1
    rowPending (List.mem_singleton.mpr rfl) (by decide)

/-! ### Claim C6: campaign status after the push sync -/

/-- The per-table sync fold counts exactly the fully pushed queues and
the records they hold. -/
theorem syncTables_spec (ok : Nat → Bool) :
    ∀ (groups : List (Nat × List Assignment)) (acc : Nat × Nat),
      groups.foldl (fun acc g => if ok g.1 then (acc.1 + 1, acc.2 + g.2.length) else acc) acc
        = (acc.1 + (groups.filter (fun g => ok g.1)).length,
           acc.2 + ((groups.filter (fun g => ok g.1)).map (fun g => g.2.length)).sum) := by
  intro groups
  induction groups with
  | nil => intro acc; simp
  | cons g rest ih =>
    intro acc
    rw [List.foldl_cons]
    by_cases h : ok g.1 = true
    · rw [if_pos h, ih]
      simp [List.filter_cons, h, Prod.ext_iff]
      omega
    · rw [if_neg h, ih]
      simp [List.filter_cons, h]

/-- The `campaign_status` computed by the push sync, in terms of the
fully pushed queues. -/
theorem airtable_sync_status_eq (ok : Nat → Bool) (N : Nat) (cid b : String)
    (db : List Assignment) (cs : List Campaign) :
    (airtable_sync ok N cid b db cs).2.2.2
      = (decide ((fullyPushed ok cid b db).length = N)
          && decide (0 < ((fullyPushed ok cid b db).map (fun g => g.2.length)).sum)) := by
  show (decide ((syncTables ok (byTable (syncRows cid b db))).1 = N)
      && decide (0 < (syncTables ok (byTable (syncRows cid b db))).2)) = _
  unfold syncTables fullyPushed
  rw [syncTables_spec]
  simp

/-- Every campaign row of this campaign and tenant carries the computed
status after the push sync. -/
theorem airtable_sync_campaign_status (ok : Nat → Bool) (N : Nat) (cid b : String)
    (db : List Assignment) (cs : List Campaign) (c : Campaign)
    (hc : c ∈ (airtable_sync ok N cid b db cs).1)
    (hcid : c.campaign_id = cid) (hb : c.base_id = b) :
    c.status = (airtable_sync ok N cid b db cs).2.2.2 := by
  have hc2 : c ∈ cs.map (fun c0 =>
      if decide (c0.campaign_id = cid) && decide (c0.base_id = b) then
        { c0 with status := (airtable_sync ok N cid b db cs).2.2.2 }
      else c0) := hc
  rcases List.mem_map.mp hc2 with ⟨c0, _, hceq⟩
  by_cases hcond : (decide (c0.campaign_id = cid) && decide (c0.base_id = b)) = true
  · rw [if_pos hcond] at hceq
    rw [← hceq]
  · rw [if_neg hcond] at hceq
    exfalso
    apply hcond
    rw [hceq]
    simp [hcid, hb]

/-- Claim C6: after the push sync, the campaign's status is `true` iff
the number of fully pushed queues equals the configured queue count `N`
and at least one record was pushed (`records_synced > 0`). -/
theorem airtable_sync_status_correct (ok : Nat → Bool) (N : Nat) (cid b : String)
    (db : List Assignment) (cs : List Campaign) (c : Campaign)
    (hc : c ∈ (airtable_sync ok N cid b db cs).1)
    (hcid : c.campaign_id = cid) (hb : c.base_id = b) :
    c.status = true
      ↔ (fullyPushed ok cid b db).length = N
          ∧ 0 < ((fullyPushed ok cid b db).map (fun g => g.2.length)).sum := by
  rw [airtable_sync_campaign_status ok N cid b db cs c hc hcid hb,
    airtable_sync_status_eq]
  simp

/-- Witness for claim C6: two queues, both pushed, `N = 2`. -/
theorem airtable_sync_status_correct_witness :
    ({ campaignC1 with status := true }).status = true
      ↔ (fullyPushed (fun _ => true) "c1" "appA1234567" dbTwoQueues).length = 2
          ∧ 0 < ((fullyPushed (fun _ => true) "c1" "appA1234567" dbTwoQueues).map
              (fun g => g.2.length)).sum :=
  airtable_sync_status_correct (fun _ => true) 2 "c1" "appA1234567" dbTwoQueues
    [campaignC1] { campaignC1 with status := true }
    (by simp [airtable_sync, syncTables, syncRows, byTable, dedupKeepFirst,
      dbTwoQueues, mkDistributed, campaignC1])
    rfl rfl

/-! ### Claim C4: distribution packing -/

/-- `mapSlots` preserves length. -/
theorem mapSlots_length (M : Nat) :
    ∀ (off : Nat) (l : List Assignment), (mapSlots M off l).length = l.length
  | _, [] => rfl
  | off, _ :: rest => by
    simp [mapSlots, mapSlots_length M (off + 1) rest]

/-- Indexing into `mapSlots`: the row at index `i` receives the slot of
flat offset `off + i`. -/
theorem mapSlots_getElem? (M : Nat) :
    ∀ (l : List Assignment) (off i : Nat),
      (mapSlots M off l)[i]? = l[i]?.map (fun a =>
        { a with va_table_number := (off + i) / M + 1, position := (off + i) % M + 1 }) := by
  intro l
  induction l with
  | nil => intro off i; simp [mapSlots]
  | cons a rest ih =>
    intro off i
    cases i with
    | zero => simp [mapSlots]
    | succ j =>
      simp only [mapSlots, List.getElem?_cons_succ, ih (off + 1) j]
      have : off + 1 + j = off + (j + 1) := by omega
      rw [this]

/-- Closed form of the distribution loop: starting at table `a+1`,
position `b+1`, it packs the next `N*M - (a*M + b)` rows by flat offset
and leaves the rest untouched. -/
theorem distLoop_closed (N M : Nat) :
    ∀ (ps : List Assignment) (a b : Nat), b < M → a < N →
      distLoop N M (a + 1) (b + 1) ps
        = mapSlots M (a * M + b) (ps.take (N * M - (a * M + b)))
            ++ ps.drop (N * M - (a * M + b)) := by
  intro ps
  induction ps with
  | nil =>
    intro a b _ _
    simp [distLoop, mapSlots]
  | cons x rest ih =>
    intro a b hb ha
    have hMpos : 0 < M := by omega
    have hm2 : a * M + M ≤ N * M := by
      have h1 : (a + 1) * M ≤ N * M := Nat.mul_le_mul_right M ha
      have h2 : (a + 1) * M = a * M + M := Nat.succ_mul a M
      omega
    have hofflt : a * M + b < N * M := by omega
    have hdiv : (a * M + b) / M = a := by
      rw [Nat.add_comm, Nat.add_mul_div_right _ _ hMpos, Nat.div_eq_of_lt hb, Nat.zero_add]
    have hmod : (a * M + b) % M = b := by
      rw [Nat.add_comm, Nat.add_mul_mod_self_right, Nat.mod_eq_of_lt hb]
    simp only [distLoop]
    by_cases hb2 : M < b + 1 + 1
    · have hM : M = b + 1 := by omega
      rw [if_pos hb2]
      by_cases ha2 : N < a + 1 + 1
      · have hNM : N * M = a * M + b + 1 := by
          have hN : N = a + 1 := by omega
          have e1 : (a + 1) * M = a * M + M := Nat.succ_mul a M
          rw [hN]
          omega
        rw [if_pos ha2]
        have hcap1 : N * M - (a * M + b) = 0 + 1 := by omega
        rw [hcap1, List.take_succ_cons, List.take_zero, List.drop_succ_cons,
          List.drop_zero]
        simp [mapSlots, hdiv, hmod]
      · rw [if_neg ha2]
        have ha1 : a + 1 < N := by omega
        have hrec := ih (a + 1) 0 hMpos ha1
        simp only [Nat.add_zero, Nat.zero_add] at hrec
        rw [hrec]
        have e1 : (a + 1) * M = a * M + b + 1 := by
          have e2 : (a + 1) * M = a * M + M := Nat.succ_mul a M
          omega
        rw [e1]
        have hcap2 : N * M - (a * M + b) = (N * M - (a * M + b + 1)) + 1 := by omega
        rw [hcap2, List.take_succ_cons, List.drop_succ_cons]
        simp [mapSlots, hdiv, hmod]
    · rw [if_neg hb2]
      have hb1 : b + 1 < M := by omega
      have hrec := ih a (b + 1) hb1 ha
      rw [hrec]
      have e3 : a * M + (b + 1) = a * M + b + 1 := by omega
      rw [e3]
      have hcap2 : N * M - (a * M + b) = (N * M - (a * M + b + 1)) + 1 := by omega
      rw [hcap2, List.take_succ_cons, List.drop_succ_cons]
      simp [mapSlots, hdiv, hmod]

/-- Claim C4: after distribution with `N` queues of `M` slots, exactly
`min(|placeholders|, N*M)` rows are packed; the row at index `i` of the
shuffled list receives `(queue_index, position) = (i/M + 1, i%M + 1)`,
filling queues contiguously with positions `1..M` and no gaps; and every
overflow row beyond `N*M` keeps `queue_index = 0, position = 0`. -/
theorem distribute_campaign_packs (N M : Nat) (ps : List Assignment)
    (hN : 0 < N) (hM : 0 < M)
    (hplace : ∀ a ∈ ps, a.va_table_number = 0 ∧ a.position = 0) :
    distribute_campaign N M ps
      = mapSlots M 0 (ps.take (N * M)) ++ ps.drop (N * M)
    ∧ (mapSlots M 0 (ps.take (N * M))).length = min ps.length (N * M)
    ∧ (∀ (i : Nat) (p : Assignment), (ps.take (N * M))[i]? = some p →
        (distribute_campaign N M ps)[i]?
          = some { p with va_table_number := i / M + 1, position := i % M + 1 })
    ∧ (∀ p ∈ (distribute_campaign N M ps).drop (min ps.length (N * M)),
        p.va_table_number = 0 ∧ p.position = 0) := by
  have h0 : distribute_campaign N M ps
      = mapSlots M 0 (ps.take (N * M)) ++ ps.drop (N * M) := by
    have h1 := distLoop_closed N M ps 0 0 hM hN
    simp only [Nat.zero_mul, Nat.zero_add, Nat.add_zero, Nat.sub_zero] at h1
    exact h1
  have hlen : (mapSlots M 0 (ps.take (N * M))).length = min ps.length (N * M) := by
    rw [mapSlots_length, List.length_take, Nat.min_comm]
  refine ⟨h0, hlen, ?_, ?_⟩
  · intro i p hp
    have hi : i < (ps.take (N * M)).length := by
      by_contra hcon
      rw [List.getElem?_eq_none (Nat.le_of_not_lt hcon)] at hp
      exact Option.noConfusion hp
    rw [h0, List.getElem?_append_left (by rw [mapSlots_length]; exact hi),
      mapSlots_getElem?, hp]
    simp
  · intro p hp
    rw [h0, ← hlen, List.drop_left] at hp
    exact hplace p (List.drop_subset _ _ hp)

/-- Witness for claim C4: seven placeholders into 2 queues of 3 slots. -/
theorem distribute_campaign_packs_witness :
    distribute_campaign 2 3 placeholders7
      = mapSlots 3 0 (placeholders7.take (2 * 3)) ++ placeholders7.drop (2 * 3) :=
  (distribute_campaign_packs 2 3 placeholders7 (by decide) (by decide) (by decide)).1

/-! ### Claim C5: ingestion idempotence -/

/-- Membership in the chunked existence probe: an id is reported iff
some `global_usernames` row (of any tenant) carries it and it was among
the probed ids. -/
theorem mem_probeExisting (globalRows : List GlobalRow) (allIds : List String) (x : String) :
    x ∈ probeExisting globalRows allIds
      ↔ (∃ g ∈ globalRows, g.id = x) ∧ x ∈ allIds := by
  unfold probeExisting
  rw [List.mem_flatten]
  constructor
  · rintro ⟨l, hl, hx⟩
    rcases List.mem_map.mp hl with ⟨chunk, hchunk, rfl⟩
    rcases List.mem_map.mp hx with ⟨g, hg, rfl⟩
    have hgf := List.mem_filter.mp hg
    refine ⟨⟨g, hgf.1, rfl⟩, ?_⟩
    have hmemc : g.id ∈ chunk := by simpa using hgf.2
    rw [← pyChunks_flatten 5000 (by norm_num) allIds]
    exact List.mem_flatten.mpr ⟨chunk, hchunk, hmemc⟩
  · rintro ⟨⟨g, hg, rfl⟩, hx⟩
    have hx2 : g.id ∈ (pyChunks 5000 allIds).flatten := by
      rw [pyChunks_flatten 5000 (by norm_num)]
      exact hx
    rcases List.mem_flatten.mp hx2 with ⟨chunk, hchunk, hmem⟩
    refine ⟨(globalRows.filter (fun g2 => chunk.contains g2.id)).map (fun g2 => g2.id),
      List.mem_map.mpr ⟨chunk, hchunk, rfl⟩, ?_⟩
    exact List.mem_map.mpr ⟨g, List.mem_filter.mpr ⟨hg, by simpa using hmem⟩, rfl⟩

/-- `batch_insert_profiles` with no valid input touches nothing. -/
theorem batch_insert_profiles_of_isEmpty (st : Store) (profiles : List InProfile)
    (b : String) (bs now : Nat) (hv : (validateProfiles profiles).isEmpty = true) :
    batch_insert_profiles st profiles b bs now = (st, 0, 0, 0) := by
  unfold batch_insert_profiles
  rw [if_pos hv]

/-- `batch_insert_profiles` with valid input and a positive batch size:
the chunked inserts amount to appending the raw and new-global records. -/
theorem batch_insert_profiles_of_ne (st : Store) (profiles : List InProfile)
    (b : String) (bs now : Nat) (hv : (validateProfiles profiles).isEmpty = false)
    (hbs : 0 < bs) :
    batch_insert_profiles st profiles b bs now
      = ({ raw_scraped_profiles := st.raw_scraped_profiles
              ++ rawRecordsOf (validateProfiles profiles) b now,
           global_usernames := st.global_usernames
              ++ globalRecordsOf (validateProfiles profiles)
                  (probeExisting st.global_usernames
                    ((validateProfiles profiles).map (fun p => p.id))) b now },
         (rawRecordsOf (validateProfiles profiles) b now).length,
         (globalRecordsOf (validateProfiles profiles)
             (probeExisting st.global_usernames
               ((validateProfiles profiles).map (fun p => p.id))) b now).length,
         ((validateProfiles profiles).filter (fun p =>
             (probeExisting st.global_usernames
               ((validateProfiles profiles).map (fun p => p.id))).contains p.id)).length) := by
  unfold batch_insert_profiles
  rw [if_neg (by simp [hv])]
  simp only []
  rw [pyChunks_flatten bs hbs, pyChunks_flatten bs hbs,
    pyChunks_sum_length bs hbs, pyChunks_sum_length bs hbs]

/-- Claim C5: bulk ingestion is idempotent on the deduplicated pool for
a fixed tenant.  Running `batch_insert_profiles` twice on the same
profile list leaves `global_usernames` exactly as after the first run,
the second run reports `added_to_global = 0`, and each run appends one
`raw_scraped_profiles` row per valid input. -/
theorem batch_insert_profiles_idempotent (st : Store) (profiles : List InProfile)
    (base_id : String) (bs : Nat) (hbs : 0 < bs) (now1 now2 : Nat) :
    (batch_insert_profiles (batch_insert_profiles st profiles base_id bs now1).1
        profiles base_id bs now2).1.global_usernames
      = (batch_insert_profiles st profiles base_id bs now1).1.global_usernames
    ∧ (batch_insert_profiles (batch_insert_profiles st profiles base_id bs now1).1
        profiles base_id bs now2).2.2.1 = 0
    ∧ (batch_insert_profiles st profiles base_id bs now1).1.raw_scraped_profiles.length
        = st.raw_scraped_profiles.length + (validateProfiles profiles).length
    ∧ (batch_insert_profiles (batch_insert_profiles st profiles base_id bs now1).1
        profiles base_id bs now2).1.raw_scraped_profiles.length
        = (batch_insert_profiles st profiles base_id bs now1).1.raw_scraped_profiles.length
          + (validateProfiles profiles).length := by
  cases hv : (validateProfiles profiles).isEmpty
  · -- valid inputs exist
    have h1 := batch_insert_profiles_of_ne st profiles base_id bs now1 hv hbs
    have hst1g : (batch_insert_profiles st profiles base_id bs now1).1.global_usernames
        = st.global_usernames
            ++ globalRecordsOf (validateProfiles profiles)
                (probeExisting st.global_usernames
                  ((validateProfiles profiles).map (fun p => p.id))) base_id now1 := by
      rw [h1]
    -- every valid id is present in global_usernames after the first run
    have hkey : ∀ p ∈ validateProfiles profiles,
        p.id ∈ probeExisting
          (batch_insert_profiles st profiles base_id bs now1).1.global_usernames
          ((validateProfiles profiles).map (fun q => q.id)) := by
      intro p hp
      rw [mem_probeExisting]
      refine ⟨?_, List.mem_map.mpr ⟨p, hp, rfl⟩⟩
      by_cases hex : p.id ∈ probeExisting st.global_usernames
          ((validateProfiles profiles).map (fun q => q.id))
      · rcases (mem_probeExisting _ _ _).mp hex with ⟨⟨g, hg, hgid⟩, _⟩
        refine ⟨g, ?_, hgid⟩
        rw [hst1g]
        exact List.mem_append_left _ hg
      · refine ⟨GlobalRow.mk p.id p.username p.full_name false now1 base_id, ?_, rfl⟩
        rw [hst1g]
        refine List.mem_append_right _ ?_
        unfold globalRecordsOf
        refine List.mem_map.mpr ⟨p, List.mem_filter.mpr ⟨hp, ?_⟩, rfl⟩
        simpa using hex
    -- hence the second run creates no new global rows
    have hge : globalRecordsOf (validateProfiles profiles)
        (probeExisting (batch_insert_profiles st profiles base_id bs now1).1.global_usernames
          ((validateProfiles profiles).map (fun p => p.id))) base_id now2 = [] := by
      unfold globalRecordsOf
      have hfe : (validateProfiles profiles).filter (fun p =>
          !(probeExisting (batch_insert_profiles st profiles base_id bs now1).1.global_usernames
              ((validateProfiles profiles).map (fun p => p.id))).contains p.id) = [] := by
        rw [List.filter_eq_nil_iff]
        intro p hp
        simp only [Bool.not_eq_true', Bool.not_eq_false]
        simpa using hkey p hp
      rw [hfe, List.map_nil]
    have h2 := batch_insert_profiles_of_ne
      (batch_insert_profiles st profiles base_id bs now1).1 profiles base_id bs now2 hv hbs
    refine ⟨?_, ?_, ?_, ?_⟩
    · rw [h2]
      show (batch_insert_profiles st profiles base_id bs now1).1.global_usernames ++ _
          = (batch_insert_profiles st profiles base_id bs now1).1.global_usernames
      rw [hge, List.append_nil]
    · rw [h2]
      show (globalRecordsOf _ _ _ _).length = 0
      rw [hge, List.length_nil]
    · rw [h1]
      show (st.raw_scraped_profiles
          ++ rawRecordsOf (validateProfiles profiles) base_id now1).length = _
      rw [List.length_append]
      unfold rawRecordsOf
      rw [List.length_map]
    · rw [h2]
      show ((batch_insert_profiles st profiles base_id bs now1).1.raw_scraped_profiles
          ++ rawRecordsOf (validateProfiles profiles) base_id now2).length = _
      rw [List.length_append]
      unfold rawRecordsOf
      rw [List.length_map]
  · -- no valid inputs: both runs are identity with zero counters
    have h1 := batch_insert_profiles_of_isEmpty st profiles base_id bs now1 hv
    have h2 := batch_insert_profiles_of_isEmpty
      (batch_insert_profiles st profiles base_id bs now1).1 profiles base_id bs now2 hv
    have hvl : (validateProfiles profiles).length = 0 := by
      cases hg : validateProfiles profiles
      · rfl
      · rw [hg] at hv
        exact Bool.noConfusion hv
    rw [h2, h1]
    simp [hvl]

/-- Witness for claim C5: ingesting the same one-profile list twice into
an empty store adds no global row on the second run. -/
theorem batch_insert_profiles_idempotent_witness :
    (batch_insert_profiles
        (batch_insert_profiles storeEmpty [profIn] "appA1234567" 1000 0).1
        [profIn] "appA1234567" 1000 1).2.2.1 = 0 :=
  (batch_insert_profiles_idempotent storeEmpty [profIn] "appA1234567" 1000
    (by decide) 0 1).2.1
